import Mathlib

/-
Shallow embedding of Holmes-Gateway's master gateway
(src/mastergateway/mastergateway.go) in Lean 4.

Modelling conventions:
* Go byte slices are `List Nat` (each element a byte value; `%256` is
  irrelevant here because the code never does byte arithmetic other than
  `^= 1`, which cannot leave the byte range for a byte input).
* The process-wide configuration and derived state (`srcRouter`, `users`,
  `keys`, `ownOrganization`, `conf`) are passed explicitly as parameters.
  Organizations are identified by their index in `conf.Organizations`,
  matching the Go code's use of `&conf.Organizations[num]` pointers as
  map keys.
* External library calls from the `tasking` utils package and the Go
  standard library (bcrypt comparison, RSA/AES primitives, JSON
  marshalling, the random source, HTTP transport) are oracle parameters:
  total or `Except`-valued functions supplied by the caller, exactly as
  the gateway code consumes their results.
* Go functions returning `(error, T)` pairs become `Except`/`Option`
  values; a `nil` slice and an empty non-nil slice are distinguished by
  `Option (List _)` where the distinction is observable (`handleTask`).
-/

namespace HolmesGateway

/-- Mirror of tasking.Task: the unit of work submitted to the gateway.
`Tasks` is the analyzer-name → argument-list map (association list). -/
structure Task where
  PrimaryURI : String
  SecondaryURI : String
  Filename : String
  Tasks : List (String × List String)
  Tags : List String
  Attempts : Int
  Source : String
  Download : Bool
deriving DecidableEq, Repr

/-- Mirror of tasking.User from the AllowedUsers configuration list. -/
structure User where
  Name : String
  PasswordHash : String
  Id : Int
deriving DecidableEq, Repr

/-- Mirror of tasking.TaskError: a per-task error record returned to the
client. The Go `MyError` wrapper around `error` is modelled by the
error's message string. -/
structure TaskError where
  TaskStruct : Task
  Error : String
deriving DecidableEq, Repr

/-- Mirror of crypto/rsa.PublicKey (modulus and exponent); its contents
are only ever passed to the RSA oracle. -/
structure PublicKey where
  N : Nat
  E : Int
deriving DecidableEq, Repr

set_option linter.dupNamespace false in
/-- Mirror of tasking.Encrypted: the hybrid-encrypted envelope sent as
query parameters to a partner organization. -/
structure Encrypted where
  KeyFingerprint : String
  EncryptedKey : List Nat
  Encrypted : List Nat
  IV : List Nat
deriving DecidableEq, Repr

/-- authenticate (mastergateway.go lines 123-137): looks the username up
in the static user map and compares the password against the stored
bcrypt hash via the oracle `bcryptOK` (true iff
bcrypt.CompareHashAndPassword returns nil). Both failure branches
produce `errors.New("Authentication failed")`. -/
def authenticate (users : String → Option User) (bcryptOK : String → String → Bool)
    (username password : String) : Except String User :=
  match users username with
  | none => Except.error "Authentication failed"
  | some user =>
    if bcryptOK user.PasswordHash password then Except.ok user
    else Except.error "Authentication failed"

/-- The per-task error appended for a task whose source has no route
(mastergateway.go lines 160-163). -/
def noRouteError (t : Task) : TaskError :=
  ⟨t, "No route for source!"⟩

/-- Inserting task `t` into organization `o`'s group, preserving the
order of first appearance of each organization (the Go code's
`tasklists[org] = []Task{task}` / `append(tasklist, task)` on the
`map[*tasking.Organization][]tasking.Task`, with the map modelled as an
association list keyed by organization index). -/
def upsertGroup : List (Nat × List Task) → Nat → Task → List (Nat × List Task)
  | [], o, t => [(o, [t])]
  | (o', ts) :: rest, o, t =>
    if o' = o then (o', ts ++ [t]) :: rest
    else (o', ts) :: upsertGroup rest o t

/-- The group stored for organization `o` (empty list when absent). -/
def groupOf : List (Nat × List Task) → Nat → List Task
  | [], _ => []
  | (o', ts) :: rest, o => if o' = o then ts else groupOf rest o

/-- The partition loop of handleTask (mastergateway.go lines 156-173):
walks the batch, appending a NoRouteError for every task whose Source
has no entry in `router` (the srcRouter index, source → organization
index) and inserting every routed task into its organization's group. -/
def partitionGo (router : String → Option Nat) :
    List (Nat × List Task) → List TaskError → List Task →
    List (Nat × List Task) × List TaskError
  | gs, es, [] => (gs, es)
  | gs, es, t :: ts =>
    match router t.Source with
    | none => partitionGo router gs (es ++ [noRouteError t]) ts
    | some o => partitionGo router (upsertGroup gs o t) es ts

theorem upsertGroup_cons_pos (o' : Nat) (ts : List Task) (rest : List (Nat × List Task))
    (o : Nat) (t : Task) (h : o' = o) :
    upsertGroup ((o', ts) :: rest) o t = (o', ts ++ [t]) :: rest := by
  simp [upsertGroup, h]

theorem upsertGroup_cons_neg (o' : Nat) (ts : List Task) (rest : List (Nat × List Task))
    (o : Nat) (t : Task) (h : o' ≠ o) :
    upsertGroup ((o', ts) :: rest) o t = (o', ts) :: upsertGroup rest o t := by
  simp [upsertGroup, h]

theorem groupOf_cons_pos (o' : Nat) (ts : List Task) (rest : List (Nat × List Task))
    (o : Nat) (h : o' = o) : groupOf ((o', ts) :: rest) o = ts := by
  simp [groupOf, h]

theorem groupOf_cons_neg (o' : Nat) (ts : List Task) (rest : List (Nat × List Task))
    (o : Nat) (h : o' ≠ o) : groupOf ((o', ts) :: rest) o = groupOf rest o := by
  simp [groupOf, h]

theorem groupOf_upsert_same (gs : List (Nat × List Task)) (o : Nat) (t : Task) :
    groupOf (upsertGroup gs o t) o = groupOf gs o ++ [t] := by
  induction gs with
  | nil => simp [upsertGroup, groupOf]
  | cons g rest ih =>
    obtain ⟨o', ts⟩ := g
    by_cases h : o' = o
    · simp [upsertGroup, groupOf, h]
    · simp [upsertGroup, groupOf, h, ih]

theorem groupOf_upsert_ne (gs : List (Nat × List Task)) (o o' : Nat) (t : Task)
    (h : o' ≠ o) : groupOf (upsertGroup gs o t) o' = groupOf gs o' := by
  induction gs with
  | nil => simp [upsertGroup, groupOf, Ne.symm h]
  | cons g rest ih =>
    obtain ⟨o'', ts⟩ := g
    by_cases h2 : o'' = o
    · have h3 : o'' ≠ o' := h2 ▸ Ne.symm h
      rw [upsertGroup_cons_pos _ _ _ _ _ h2, groupOf_cons_neg _ _ _ _ h3,
        groupOf_cons_neg _ _ _ _ h3]
    · by_cases h3 : o'' = o'
      · rw [upsertGroup_cons_neg _ _ _ _ _ h2, groupOf_cons_pos _ _ _ _ h3,
          groupOf_cons_pos _ _ _ _ h3]
      · rw [upsertGroup_cons_neg _ _ _ _ _ h2, groupOf_cons_neg _ _ _ _ h3,
          groupOf_cons_neg _ _ _ _ h3, ih]

theorem partitionGo_groupOf (router : String → Option Nat) (tasks : List Task) :
    ∀ (gs : List (Nat × List Task)) (es : List TaskError) (o : Nat),
    groupOf (partitionGo router gs es tasks).1 o
      = groupOf gs o ++ tasks.filter (fun t => decide (router t.Source = some o)) := by
  induction tasks with
  | nil => intro gs es o; simp [partitionGo]
  | cons t ts ih =>
    intro gs es o
    cases hr : router t.Source with
    | none =>
      have hne : ¬ (router t.Source = some o) := by simp [hr]
      simp [partitionGo, hr, ih, List.filter_cons, hne]
    | some o' =>
      by_cases h : o' = o
      · subst h
        simp [partitionGo, hr, ih, List.filter_cons, hr, groupOf_upsert_same,
          List.append_assoc]
      · have hne : ¬ (router t.Source = some o) := by simp [hr, h]
        simp [partitionGo, hr, ih, List.filter_cons, hne, h,
          groupOf_upsert_ne _ _ _ _ (Ne.symm h)]

theorem partitionGo_errs (router : String → Option Nat) (tasks : List Task) :
    ∀ (gs : List (Nat × List Task)) (es : List TaskError),
    (partitionGo router gs es tasks).2
      = es ++ (tasks.filter (fun t => (router t.Source).isNone)).map noRouteError := by
  induction tasks with
  | nil => intro gs es; simp [partitionGo]
  | cons t ts ih =>
    intro gs es
    cases hr : router t.Source with
    | none => simp [partitionGo, hr, ih, List.filter_cons, List.append_assoc]
    | some o => simp [partitionGo, hr, ih, List.filter_cons]

theorem upsert_keys_mem (gs : List (Nat × List Task)) (o : Nat) (t : Task) :
    ∀ x, x ∈ (upsertGroup gs o t).map Prod.fst → x ∈ gs.map Prod.fst ∨ x = o := by
  induction gs with
  | nil =>
    intro x hx
    right
    simpa [upsertGroup] using hx
  | cons g rest ih =>
    obtain ⟨o', ts⟩ := g
    intro x hx
    by_cases h : o' = o
    · simp only [upsertGroup, if_pos h, List.map_cons, List.mem_cons] at hx
      left
      simp only [List.map_cons, List.mem_cons]
      exact hx
    · simp only [upsertGroup, if_neg h, List.map_cons, List.mem_cons] at hx
      rcases hx with hx | hx
      · left
        simp only [List.map_cons, List.mem_cons]
        left
        exact hx
      · rcases ih x hx with h2 | h2
        · left
          simp only [List.map_cons, List.mem_cons]
          right
          exact h2
        · right
          exact h2

theorem upsert_keys_nodup (gs : List (Nat × List Task)) (o : Nat) (t : Task)
    (h : (gs.map Prod.fst).Nodup) : ((upsertGroup gs o t).map Prod.fst).Nodup := by
  induction gs with
  | nil => simp [upsertGroup]
  | cons g rest ih =>
    obtain ⟨o', ts⟩ := g
    simp only [List.map_cons, List.nodup_cons] at h
    by_cases h2 : o' = o
    · rw [upsertGroup_cons_pos _ _ _ _ _ h2]
      simp only [List.map_cons, List.nodup_cons]
      exact h
    · rw [upsertGroup_cons_neg _ _ _ _ _ h2]
      simp only [List.map_cons, List.nodup_cons]
      refine ⟨?_, ih h.2⟩
      intro hmem
      rcases upsert_keys_mem rest o t o' hmem with h3 | h3
      · exact h.1 h3
      · exact h2 h3

theorem partitionGo_keys_nodup (router : String → Option Nat) (tasks : List Task) :
    ∀ (gs : List (Nat × List Task)) (es : List TaskError),
    (gs.map Prod.fst).Nodup → (((partitionGo router gs es tasks).1).map Prod.fst).Nodup := by
  induction tasks with
  | nil => intro gs es h; simpa [partitionGo] using h
  | cons t ts ih =>
    intro gs es h
    cases hr : router t.Source with
    | none => simpa [partitionGo, hr] using ih gs _ h
    | some o => simpa [partitionGo, hr] using ih _ es (upsert_keys_nodup gs o t h)

theorem groupOf_entry (gs : List (Nat × List Task)) (o : Nat) (ts : List Task)
    (hnd : (gs.map Prod.fst).Nodup) (hmem : (o, ts) ∈ gs) : groupOf gs o = ts := by
  induction gs with
  | nil => simp at hmem
  | cons g rest ih =>
    obtain ⟨o', ts'⟩ := g
    simp only [List.map_cons, List.nodup_cons] at hnd
    rcases List.mem_cons.mp hmem with h | h
    · injection h with ho hts
      subst ho
      subst hts
      simp [groupOf]
    · have hkey : o ∈ rest.map Prod.fst := List.mem_map_of_mem Prod.fst h
      have hne : o' ≠ o := fun he => hnd.1 (he ▸ hkey)
      simp [groupOf, hne, ih hnd.2 h]

/-- Outcome of one sendTaskList call as consumed by handleTask's
dispatch loop (mastergateway.go lines 175-200): `transportErr` models a
non-nil error returned by sendTaskList, `decodeErr` a json.Unmarshal
failure on the bytes it returned, and `ok` a successfully decoded
per-task error list from the partner organization. -/
inductive SendOutcome where
  | transportErr (msg : String)
  | decodeErr (msg : String)
  | ok (errs : List TaskError)
deriving DecidableEq, Repr

/-- The per-task error built when sendTaskList fails (lines 179-183). -/
def sendErrTask (msg : String) (t : Task) : TaskError :=
  ⟨t, "Error while sending task! " ++ msg⟩

/-- The per-task error built when decoding the partner response fails
(lines 189-194). -/
def parseErrTask (msg : String) (t : Task) : TaskError :=
  ⟨t, "Error while parsing result! " ++ msg⟩

/-- The task errors contributed by dispatching one group: the loop body
of lines 175-200. -/
def groupErrs (send : Nat → List Task → SendOutcome) (g : Nat × List Task) : List TaskError :=
  match send g.1 g.2 with
  | .transportErr m => g.2.map (sendErrTask m)
  | .decodeErr m => g.2.map (parseErrTask m)
  | .ok es => es

/-- The dispatch loop of handleTask: processes the groups sequentially
in the order given, appending each group's errors to the accumulator,
and records the sequence of sendTaskList calls made (second
component). -/
def dispatchGroups (send : Nat → List Task → SendOutcome) :
    List (Nat × List Task) → List TaskError → List TaskError × List (Nat × List Task)
  | [], acc => (acc, [])
  | g :: rest, acc =>
    let r := dispatchGroups send rest (acc ++ groupErrs send g)
    (r.1, g :: r.2)

/-- Concatenation of the groups' error contributions, in order. -/
def allGroupErrs (send : Nat → List Task → SendOutcome) :
    List (Nat × List Task) → List TaskError
  | [] => []
  | g :: rest => groupErrs send g ++ allGroupErrs send rest

theorem dispatchGroups_eq (send : Nat → List Task → SendOutcome)
    (gs : List (Nat × List Task)) :
    ∀ acc, dispatchGroups send gs acc = (acc ++ allGroupErrs send gs, gs) := by
  induction gs with
  | nil => intro acc; simp [dispatchGroups, allGroupErrs]
  | cons g rest ih =>
    intro acc
    simp [dispatchGroups, allGroupErrs, ih, List.append_assoc]

/-- The observable result of handleTask: the Go return pair
(error, []tasking.TaskError), with `none` versus `some []`
distinguishing a nil slice from an allocated empty one, plus the
sequence of sendTaskList calls the run performed (an instrumentation of
the dispatch side effect). -/
structure HandleResult where
  err : Option String
  tskerrors : Option (List TaskError)
  sent : List (Nat × List Task)
deriving DecidableEq, Repr

/-- handleTask (mastergateway.go lines 139-203). Parameters: the static
user map and bcrypt oracle, the srcRouter index, the json.Unmarshal
oracle `parse` for the wire-form batch, the order `iter` in which Go's
map range visits the formed groups (unspecified by Go, hence a
parameter), and the dispatch oracle `send` standing for sendTaskList
plus the response decode. -/
def handleTask (users : String → Option User) (bcryptOK : String → String → Bool)
    (router : String → Option Nat)
    (parse : String → Except String (List Task))
    (iter : List (Nat × List Task) → List (Nat × List Task))
    (send : Nat → List Task → SendOutcome)
    (tasksStr username password : String) : HandleResult :=
  match authenticate users bcryptOK username password with
  | .error e => ⟨some e, none, []⟩
  | .ok _ =>
    match parse tasksStr with
    | .error e => ⟨some e, some [], []⟩
    | .ok tasks =>
      let pr := partitionGo router [] [] tasks
      let dr := dispatchGroups send (iter pr.1) pr.2
      ⟨none, some dr.1, dr.2⟩

/-- Demo fixtures used by the closed witness and counterexample
theorems below. -/
def demoUser : User := ⟨"alice", "hash", 1⟩

def demoUsers : String → Option User :=
  fun u => if u = "alice" then some demoUser else none

def demoBcrypt : String → String → Bool :=
  fun h p => h == "hash" && p == "pw"

def mkTask (src : String) : Task := ⟨"", "", "", [], [], 0, src, false⟩

def taskA : Task := mkTask "a"

def taskA2 : Task := ⟨"", "", "f2", [], [], 0, "a", false⟩

def taskB : Task := mkTask "b"

def taskC : Task := mkTask "c"

def demoRouter : String → Option Nat :=
  fun s => if s = "a" then some 0 else if s = "b" then some 1 else none

def demoParse : String → Except String (List Task) :=
  fun _ => .ok [taskA, taskB, taskC]

def demoParseAB : String → Except String (List Task) :=
  fun _ => .ok [taskA, taskB]

def demoParseAA : String → Except String (List Task) :=
  fun _ => .ok [taskA, taskA2]

def demoSendOk : Nat → List Task → SendOutcome := fun _ _ => .ok []

def demoSendDecodeErr : Nat → List Task → SendOutcome :=
  fun _ _ => .decodeErr "bad json"

/-- C1: handleTask's partition places each task whose Source is routed
into exactly that organization's group (groups list exactly the batch's
tasks routed to them, in original order, so no task is lost, duplicated
or placed in a foreign group), and each unrouted task becomes exactly
one NoRouteError in the result list, in original order. -/
theorem handleTask_partition_exact (router : String → Option Nat) (tasks : List Task) :
    (partitionGo router [] [] tasks).2
        = (tasks.filter (fun t => (router t.Source).isNone)).map noRouteError ∧
    (∀ o, groupOf (partitionGo router [] [] tasks).1 o
        = tasks.filter (fun t => decide (router t.Source = some o))) ∧
    (∀ g, g ∈ (partitionGo router [] [] tasks).1 →
        g.2 = tasks.filter (fun t => decide (router t.Source = some g.1))) := by
  refine ⟨?_, ?_, ?_⟩
  · simpa using partitionGo_errs router tasks [] []
  · intro o
    simpa [groupOf] using partitionGo_groupOf router tasks [] [] o
  · intro g hg
    obtain ⟨o, ts⟩ := g
    have hnd := partitionGo_keys_nodup router tasks [] [] (by simp)
    have he := groupOf_entry _ _ _ hnd hg
    rw [← he]
    simpa [groupOf] using partitionGo_groupOf router tasks [] [] o

/-- Witness for C1 at a concrete batch: "a" and "b" are routed, "c" is
not; the group membership hypothesis of the third conjunct is
discharged at the concrete group of organization 0. -/
theorem handleTask_partition_exact_witness :
    (0, [taskA]) ∈ (partitionGo demoRouter [] [] [taskA, taskB, taskC]).1 ∧
    [taskA] = [taskA, taskB, taskC].filter
      (fun t => decide (demoRouter t.Source = some 0)) ∧
    (partitionGo demoRouter [] [] [taskA, taskB, taskC]).2 = [noRouteError taskC] := by
  refine ⟨by decide, ?_, ?_⟩
  · have := (handleTask_partition_exact demoRouter [taskA, taskB, taskC]).2.2
      (0, [taskA]) (by decide)
    simpa using this
  · have := (handleTask_partition_exact demoRouter [taskA, taskB, taskC]).1
    rw [this]
    decide

/-- C3: authenticate succeeds exactly on a known username whose
password matches the stored bcrypt hash, and both failure branches
(unknown username, wrong password) return the identical generic
message, so the result does not distinguish whether the username
exists. -/
theorem authenticate_generic_failure (users : String → Option User)
    (bcryptOK : String → String → Bool) (username password : String) :
    (∀ u, authenticate users bcryptOK username password = Except.ok u ↔
      users username = some u ∧ bcryptOK u.PasswordHash password = true) ∧
    (users username = none →
      authenticate users bcryptOK username password
        = Except.error "Authentication failed") ∧
    (∀ u, users username = some u → bcryptOK u.PasswordHash password = false →
      authenticate users bcryptOK username password
        = Except.error "Authentication failed") ∧
    (∀ e, authenticate users bcryptOK username password = Except.error e →
      e = "Authentication failed") := by
  refine ⟨?_, ?_, ?_, ?_⟩
  · intro u
    constructor
    · intro h
      cases hu : users username with
      | none => simp [authenticate, hu] at h
      | some u' =>
        by_cases hb : bcryptOK u'.PasswordHash password
        · simp [authenticate, hu, hb] at h
          subst h
          exact ⟨rfl, hb⟩
        · simp [authenticate, hu, hb] at h
    · intro ⟨h1, h2⟩
      simp [authenticate, h1, h2]
  · intro h
    simp [authenticate, h]
  · intro u h1 h2
    simp [authenticate, h1, h2]
  · intro e h
    cases hu : users username with
    | none =>
      simp [authenticate, hu] at h
      exact h.symm
    | some u' =>
      by_cases hb : bcryptOK u'.PasswordHash password
      · simp [authenticate, hu, hb] at h
      · simp [authenticate, hu, hb] at h
        exact h.symm

/-- Witness for C3: concrete success, unknown-user failure, and
wrong-password failure produce identical generic errors. -/
theorem authenticate_generic_failure_witness :
    authenticate demoUsers demoBcrypt "alice" "pw" = Except.ok demoUser ∧
    authenticate demoUsers demoBcrypt "bob" "pw"
      = Except.error "Authentication failed" ∧
    authenticate demoUsers demoBcrypt "alice" "nope"
      = Except.error "Authentication failed" := by
  refine ⟨?_, ?_, ?_⟩
  · exact ((authenticate_generic_failure demoUsers demoBcrypt "alice" "pw").1
      demoUser).mpr ⟨by decide, by decide⟩
  · exact (authenticate_generic_failure demoUsers demoBcrypt "bob" "pw").2.1
      (by decide)
  · exact (authenticate_generic_failure demoUsers demoBcrypt "alice" "nope").2.2.1
      demoUser (by decide) (by decide)

/-- C4: when authentication fails, handleTask returns exactly the one
authentication error with a nil (not merely empty) task-error list and
performs no dispatch; the result is independent of the batch string,
the parser, the routing index, the iteration order and the dispatcher,
so nothing is parsed, partitioned or sent. -/
theorem handleTask_auth_abort (users : String → Option User)
    (bcryptOK : String → String → Bool) (router : String → Option Nat)
    (parse : String → Except String (List Task))
    (iter : List (Nat × List Task) → List (Nat × List Task))
    (send : Nat → List Task → SendOutcome)
    (tasksStr username password e : String)
    (h : authenticate users bcryptOK username password = Except.error e) :
    handleTask users bcryptOK router parse iter send tasksStr username password
      = ⟨some e, none, []⟩ := by
  simp [handleTask, h]

/-- Witness for C4: a wrong password on a known user aborts the whole
batch with the generic error, a nil error list and no dispatch. -/
theorem handleTask_auth_abort_witness :
    handleTask demoUsers demoBcrypt demoRouter demoParse id demoSendOk
      "x" "alice" "wrong" = ⟨some "Authentication failed", none, []⟩ :=
  handleTask_auth_abort demoUsers demoBcrypt demoRouter demoParse id demoSendOk
    "x" "alice" "wrong" "Authentication failed" (by rfl)

/-- C8 (amended): within one handleTask call the groups are dispatched
sequentially, one at a time, in the order Go's map range happens to
visit them (the `iter` parameter; Go leaves this order unspecified, so
it need not be the order the groups were formed); the returned error
list has the unrouted tasks' NoRouteErrors ahead of every
dispatch-produced error, the dispatch-produced errors appear
group-by-group in dispatch order, and within each group the errors
derived from the group's tasks preserve the tasks' original submission
order (each group's contribution is `groupErrs`, a map over the group
in order). -/
theorem handleTask_dispatch_order (users : String → Option User)
    (bcryptOK : String → String → Bool) (router : String → Option Nat)
    (parse : String → Except String (List Task))
    (iter : List (Nat × List Task) → List (Nat × List Task))
    (send : Nat → List Task → SendOutcome)
    (tasksStr username password : String) (u : User) (tasks : List Task)
    (hauth : authenticate users bcryptOK username password = Except.ok u)
    (hparse : parse tasksStr = Except.ok tasks) :
    handleTask users bcryptOK router parse iter send tasksStr username password =
      ⟨none,
       some ((tasks.filter (fun t => (router t.Source).isNone)).map noRouteError
         ++ allGroupErrs send (iter (partitionGo router [] [] tasks).1)),
       iter (partitionGo router [] [] tasks).1⟩ := by
  have he := partitionGo_errs router tasks [] []
  simp only [List.nil_append] at he
  simp [handleTask, hauth, hparse, dispatchGroups_eq, he]

/-- Witness for C8's amended statement: a three-task batch with one
unrouted task, dispatched with the identity iteration order. -/
theorem handleTask_dispatch_order_witness :
    handleTask demoUsers demoBcrypt demoRouter demoParse id demoSendOk
      "x" "alice" "pw" =
      ⟨none, some [noRouteError taskC], [(0, [taskA]), (1, [taskB])]⟩ :=
  (handleTask_dispatch_order demoUsers demoBcrypt demoRouter demoParse id
    demoSendOk "x" "alice" "pw" demoUser [taskA, taskB, taskC]
    (by rfl) (by rfl)).trans (by decide)

/-- Counterexample for C8 as stated: the groups formed for the batch
[taskA, taskB] are [(0, [taskA]), (1, [taskB])] in formation order, but
under the reversed map-iteration order — a permutation of the groups,
hence a possible Go map range order — the dispatch sequence is the
reverse, so the dispatch order is not determined to be the group
formation order. -/
theorem handleTask_dispatch_order_cex :
    (partitionGo demoRouter [] [] [taskA, taskB]).1
        = [(0, [taskA]), (1, [taskB])] ∧
    (handleTask demoUsers demoBcrypt demoRouter demoParseAB List.reverse
        demoSendOk "x" "alice" "pw").sent = [(1, [taskB]), (0, [taskA])] ∧
    List.Perm [(1, [taskB]), (0, [taskA])] [(0, [taskA]), (1, [taskB])] ∧
    [(1, [taskB]), (0, [taskA])] ≠ ([(0, [taskA]), (1, [taskB])] : List (Nat × List Task)) :=
  ⟨by decide, by decide, List.Perm.swap _ _ _, by decide⟩

/-- C9 (amended): when a group's dispatch succeeds at transport level
but the decrypted response fails JSON decoding, handleTask appends one
synthetic per-task error for each task of that sub-batch (all carrying
the decode failure message, in the sub-batch's order) and continues
dispatching the remaining groups, whose sendTaskList calls and error
contributions still occur; the batch is not aborted. -/
theorem handleTask_decode_failure (users : String → Option User)
    (bcryptOK : String → String → Bool) (router : String → Option Nat)
    (parse : String → Except String (List Task))
    (iter : List (Nat × List Task) → List (Nat × List Task))
    (send : Nat → List Task → SendOutcome)
    (tasksStr username password : String) (u : User) (tasks : List Task)
    (o : Nat) (tl : List Task) (rest : List (Nat × List Task)) (m : String)
    (hauth : authenticate users bcryptOK username password = Except.ok u)
    (hparse : parse tasksStr = Except.ok tasks)
    (hiter : iter (partitionGo router [] [] tasks).1 = (o, tl) :: rest)
    (hsend : send o tl = SendOutcome.decodeErr m) :
    handleTask users bcryptOK router parse iter send tasksStr username password =
      ⟨none,
       some ((partitionGo router [] [] tasks).2
         ++ tl.map (parseErrTask m) ++ allGroupErrs send rest),
       (o, tl) :: rest⟩ := by
  simp [handleTask, hauth, hparse, dispatchGroups_eq, hiter, allGroupErrs,
    groupErrs, hsend, List.append_assoc]

/-- Witness for C9's amended statement: a batch that forms two groups,
where the first group's response fails to decode while the second group
is still dispatched and contributes its own errors. -/
theorem handleTask_decode_failure_witness :
    handleTask demoUsers demoBcrypt demoRouter demoParseAB id
      (fun o _ => if o = 0 then SendOutcome.decodeErr "bad json"
        else SendOutcome.ok [])
      "x" "alice" "pw" =
      ⟨none, some [parseErrTask "bad json" taskA], [(0, [taskA]), (1, [taskB])]⟩ :=
  (handleTask_decode_failure demoUsers demoBcrypt demoRouter demoParseAB id
    (fun o _ => if o = 0 then SendOutcome.decodeErr "bad json"
      else SendOutcome.ok [])
    "x" "alice" "pw" demoUser [taskA, taskB] 0 [taskA] [(1, [taskB])] "bad json"
    (by rfl) (by rfl) (by decide) (by rfl)).trans (by decide)

/-- Counterexample for C9 as stated: a single sub-batch of two tasks
whose response fails to decode produces two synthetic per-task error
records (one per task, both carrying the decode message), not a single
error covering the sub-batch. -/
theorem handleTask_decode_failure_cex :
    (handleTask demoUsers demoBcrypt demoRouter demoParseAA id
        demoSendDecodeErr "x" "alice" "pw").tskerrors
      = some [⟨taskA, "Error while parsing result! bad json"⟩,
              ⟨taskA2, "Error while parsing result! bad json"⟩] ∧
    ((handleTask demoUsers demoBcrypt demoRouter demoParseAA id
        demoSendDecodeErr "x" "alice" "pw").tskerrors.getD []).length = 2 := by
  refine ⟨by decide, by decide⟩

/-- Error taxonomy of the encryption path. The Go code returns distinct
`error` values; `keyNotFound` is `errors.New("Public Key not found")`
from encryptKey, the others carry the message of the failing RSA/AES
oracle call. -/
inductive CryptoErr where
  | keyNotFound
  | rsaErr (msg : String)
  | aesErr (msg : String)
deriving DecidableEq, Repr

/-- encryptKey (mastergateway.go lines 64-76): fetches the recipient
public key by fingerprint from the keys map (the keysMutex-guarded
lookup, sequentialized here) and wraps the symmetric key with it via
the RSA oracle (tasking.RsaEncrypt). -/
def encryptKey (keys : String → Option PublicKey)
    (rsaEncrypt : List Nat → PublicKey → Except String (List Nat))
    (symKey : List Nat) (asymKeyId : String) : Except CryptoErr (List Nat) :=
  match keys asymKeyId with
  | none => Except.error CryptoErr.keyNotFound
  | some k =>
    match rsaEncrypt symKey k with
    | Except.error m => Except.error (CryptoErr.rsaErr m)
    | Except.ok enc => Except.ok enc

/-- encryptTicket (lines 78-96): wraps the session key via encryptKey,
encrypts the serialized ticket under the session key and IV via the
AES oracle (tasking.AesEncrypt), and assembles the envelope from the
fingerprint, wrapped key, ciphertext and IV. -/
def encryptTicket (keys : String → Option PublicKey)
    (rsaEncrypt : List Nat → PublicKey → Except String (List Nat))
    (aesEncrypt : List Nat → List Nat → List Nat → Except String (List Nat))
    (ticket : List Nat) (asymKeyId : String) (symKey iv : List Nat) :
    Except CryptoErr Encrypted :=
  match encryptKey keys rsaEncrypt symKey asymKeyId with
  | Except.error e => Except.error e
  | Except.ok encKey =>
    match aesEncrypt ticket symKey iv with
    | Except.error m => Except.error (CryptoErr.aesErr m)
    | Except.ok enc => Except.ok ⟨asymKeyId, encKey, enc, iv⟩

theorem encryptTicket_ok_shape (keys : String → Option PublicKey)
    (rsaEncrypt : List Nat → PublicKey → Except String (List Nat))
    (aesEncrypt : List Nat → List Nat → List Nat → Except String (List Nat))
    (ticket : List Nat) (asymKeyId : String) (symKey iv : List Nat) (et : Encrypted)
    (h : encryptTicket keys rsaEncrypt aesEncrypt ticket asymKeyId symKey iv
      = Except.ok et) : et.KeyFingerprint = asymKeyId ∧ et.IV = iv := by
  cases hk : keys asymKeyId with
  | none => simp [encryptTicket, encryptKey, hk] at h
  | some k =>
    cases hr : rsaEncrypt symKey k with
    | error m => simp [encryptTicket, encryptKey, hk, hr] at h
    | ok w =>
      cases ha : aesEncrypt ticket symKey iv with
      | error m => simp [encryptTicket, encryptKey, hk, hr, ha] at h
      | ok c =>
        simp only [encryptTicket, encryptKey, hk, hr, ha, Except.ok.injEq] at h
        rw [← h]
        exact ⟨rfl, rfl⟩

/-- C6: encryptTicket fails with the key-not-found error exactly when
the recipient fingerprint is absent from the key store at lookup time;
when the key is present and both encryption steps succeed it returns
an envelope whose KeyFingerprint is the given fingerprint, whose
EncryptedKey is the RSA wrapping of the session key under the found
recipient key, whose Encrypted field is the AES encryption of the
ticket bytes under the session key and IV, and whose IV is the given
IV. -/
theorem encryptTicket_spec (keys : String → Option PublicKey)
    (rsaEncrypt : List Nat → PublicKey → Except String (List Nat))
    (aesEncrypt : List Nat → List Nat → List Nat → Except String (List Nat))
    (ticket : List Nat) (asymKeyId : String) (symKey iv : List Nat) :
    (encryptTicket keys rsaEncrypt aesEncrypt ticket asymKeyId symKey iv
        = Except.error CryptoErr.keyNotFound ↔ keys asymKeyId = none) ∧
    (∀ k w c, keys asymKeyId = some k → rsaEncrypt symKey k = Except.ok w →
      aesEncrypt ticket symKey iv = Except.ok c →
      encryptTicket keys rsaEncrypt aesEncrypt ticket asymKeyId symKey iv
        = Except.ok ⟨asymKeyId, w, c, iv⟩) := by
  constructor
  · constructor
    · intro h
      cases hk : keys asymKeyId with
      | none => rfl
      | some k =>
        cases hr : rsaEncrypt symKey k with
        | error m => simp [encryptTicket, encryptKey, hk, hr] at h
        | ok w =>
          cases ha : aesEncrypt ticket symKey iv with
          | error m => simp [encryptTicket, encryptKey, hk, hr, ha] at h
          | ok c => simp [encryptTicket, encryptKey, hk, hr, ha] at h
    · intro h
      simp [encryptTicket, encryptKey, h]
  · intro k w c hk hr ha
    simp [encryptTicket, encryptKey, hk, hr, ha]

/-- Demo crypto oracles for the closed witnesses: one known key under
fingerprint "a", RSA wrapping and AES encryption as identities on the
payload, decryption returning the ciphertext. -/
def demoKeys : String → Option PublicKey :=
  fun fp => if fp = "a" then some ⟨77, 3⟩ else none

def demoRsa : List Nat → PublicKey → Except String (List Nat) :=
  fun k _ => Except.ok k

def demoAes : List Nat → List Nat → List Nat → Except String (List Nat) :=
  fun m _ _ => Except.ok m

def demoAesDec : List Nat → List Nat → List Nat → List Nat :=
  fun c _ _ => c

/-- Witness for C6: with the demo key store, encryption addressed to
the present fingerprint "a" yields the assembled envelope, and
encryption addressed to the absent fingerprint "z" fails with the
key-not-found error. -/
theorem encryptTicket_spec_witness :
    encryptTicket demoKeys demoRsa demoAes [9, 9] "a" [5] [7, 8]
      = Except.ok ⟨"a", [5], [9, 9], [7, 8]⟩ ∧
    encryptTicket demoKeys demoRsa demoAes [9, 9] "z" [5] [7, 8]
      = Except.error CryptoErr.keyNotFound := by
  constructor
  · exact (encryptTicket_spec demoKeys demoRsa demoAes [9, 9] "a" [5] [7, 8]).2
      ⟨77, 3⟩ [5] [9, 9] (by decide) (by rfl) (by rfl)
  · exact ((encryptTicket_spec demoKeys demoRsa demoAes [9, 9] "z" [5] [7, 8]).1).mpr
      (by decide)

/-- The in-place first-byte perturbation `encryptedTicket.IV[0] ^= 1`
of requestTaskList (line 116). Indexing an empty slice would be a Go
runtime panic; the gateway always passes 16-byte IVs here. -/
def flipFirstByte : List Nat → List Nat
  | [] => []
  | b :: rest => (b ^^^ 1) :: rest

/-- The symmetric decryption call requestTaskList issues on a response:
ciphertext, key and IV arguments of tasking.AesDecrypt (line 118). -/
structure DecryptCall where
  ciphertext : List Nat
  key : List Nat
  iv : List Nat
deriving DecidableEq, Repr

/-- requestTaskList (lines 98-121) after the HTTP exchange: the
response body is read in full and decrypted with the same session key
and the envelope's IV with its first byte XORed with 1. Returns the
decryption call made and the decrypted bytes the AES oracle produces
for it. -/
def requestTaskList (aesDecrypt : List Nat → List Nat → List Nat → List Nat)
    (respBody : List Nat) (et : Encrypted) (symKey : List Nat) :
    DecryptCall × List Nat :=
  let iv2 := flipFirstByte et.IV
  (⟨respBody, symKey, iv2⟩, aesDecrypt respBody symKey iv2)

theorem testBit_one (j : Nat) : Nat.testBit 1 j = decide (j = 0) := by
  have h := @Nat.testBit_two_pow 0 j
  simpa [eq_comm] using h

theorem testBit_xor_one (b j : Nat) :
    (b ^^^ 1).testBit j = if j = 0 then !(b.testBit j) else b.testBit j := by
  rw [Nat.testBit_xor, testBit_one]
  by_cases h : j = 0
  · simp [h]
  · simp [h]

/-- C2: the decryption of a partner's response uses the same session
key as the request encryption, and an IV that equals the
request-encryption IV except that exactly the least-significant bit of
its first byte is inverted: same length, identical tail, first byte
XORed with 1, and bitwise the first byte agrees everywhere except bit
0. The encryptTicket hypothesis ties the envelope to the request so
that `et.IV` is the IV the request was encrypted under and `symKey`
the session key of both directions. -/
theorem requestTaskList_iv_flip (keys : String → Option PublicKey)
    (rsaEncrypt : List Nat → PublicKey → Except String (List Nat))
    (aesEncrypt : List Nat → List Nat → List Nat → Except String (List Nat))
    (aesDecrypt : List Nat → List Nat → List Nat → List Nat)
    (ticket : List Nat) (fp : String) (symKey iv respBody : List Nat)
    (et : Encrypted)
    (henc : encryptTicket keys rsaEncrypt aesEncrypt ticket fp symKey iv
      = Except.ok et)
    (hiv : iv ≠ []) :
    (requestTaskList aesDecrypt respBody et symKey).1.key = symKey ∧
    et.IV = iv ∧
    (requestTaskList aesDecrypt respBody et symKey).1.iv.length = iv.length ∧
    (requestTaskList aesDecrypt respBody et symKey).1.iv.tail = iv.tail ∧
    (requestTaskList aesDecrypt respBody et symKey).1.iv.headD 0
      = (iv.headD 0) ^^^ 1 ∧
    (∀ j, ((requestTaskList aesDecrypt respBody et symKey).1.iv.headD 0).testBit j
      = if j = 0 then !((iv.headD 0).testBit j) else (iv.headD 0).testBit j) := by
  have hshape := encryptTicket_ok_shape keys rsaEncrypt aesEncrypt ticket fp
    symKey iv et henc
  obtain ⟨-, hIV⟩ := hshape
  cases iv with
  | nil => exact absurd rfl hiv
  | cons b rest =>
    refine ⟨rfl, hIV, ?_, ?_, ?_, ?_⟩
    · simp [requestTaskList, hIV, flipFirstByte]
    · simp [requestTaskList, hIV, flipFirstByte]
    · simp [requestTaskList, hIV, flipFirstByte]
    · intro j
      simp only [requestTaskList, hIV, flipFirstByte, List.headD_cons]
      exact testBit_xor_one b j

/-- Witness for C2 at a concrete envelope produced by encryptTicket
with IV [7, 8]: the decryption IV is [6, 8] (7 XOR 1), same key. -/
theorem requestTaskList_iv_flip_witness :
    (requestTaskList demoAesDec [3] ⟨"a", [5], [9, 9], [7, 8]⟩ [5]).1.key = [5] ∧
    (⟨"a", [5], [9, 9], [7, 8]⟩ : Encrypted).IV = [7, 8] ∧
    (requestTaskList demoAesDec [3] ⟨"a", [5], [9, 9], [7, 8]⟩ [5]).1.iv.length
      = [7, 8].length ∧
    (requestTaskList demoAesDec [3] ⟨"a", [5], [9, 9], [7, 8]⟩ [5]).1.iv.tail
      = [7, 8].tail ∧
    (requestTaskList demoAesDec [3] ⟨"a", [5], [9, 9], [7, 8]⟩ [5]).1.iv.headD 0
      = (([7, 8].headD 0) ^^^ 1 : Nat) ∧
    (∀ j, ((requestTaskList demoAesDec [3] ⟨"a", [5], [9, 9], [7, 8]⟩ [5]).1.iv.headD 0).testBit j
      = if j = 0 then !((([7, 8] : List Nat).headD 0).testBit j)
        else (([7, 8] : List Nat).headD 0).testBit j) :=
  requestTaskList_iv_flip demoKeys demoRsa demoAes demoAesDec [9, 9] "a" [5]
    [7, 8] [3] ⟨"a", [5], [9, 9], [7, 8]⟩ (by rfl) (by decide)

/-- Error taxonomy of the dispatch path. `outOfRange` models the Go
runtime panic of `tasks[0]` on an empty slice (line 213); `randErr` a
failed io.ReadFull from crypto/rand; `ticketErr` a createTicket or
json.Marshal failure; `cryptoErr` wraps encryptTicket's error. -/
inductive SendErr where
  | outOfRange
  | randErr (msg : String)
  | ticketErr (msg : String)
  | cryptoErr (e : CryptoErr)
deriving DecidableEq, Repr

/-- sendTaskList (mastergateway.go lines 205-252) up to and including
construction of the encrypted envelope handed to requestTaskList. The
recipient key fingerprint is read from `tasks[0].Source` before
anything else; `randKey` and `randIV` are the two io.ReadFull draws
from crypto/rand; `mkTicket` stands for createTicket (lines 50-62:
expiration stamping, JSON serialization, RSA signing) followed by
json.Marshal of the signed ticket — all external oracles. On success
the result is the envelope sent on the wire. -/
def sendTaskList (keys : String → Option PublicKey)
    (rsaEncrypt : List Nat → PublicKey → Except String (List Nat))
    (aesEncrypt : List Nat → List Nat → List Nat → Except String (List Nat))
    (randKey randIV : Except String (List Nat))
    (mkTicket : List Task → Except String (List Nat))
    (tasks : List Task) : Except SendErr Encrypted :=
  match tasks.head? with
  | none => Except.error SendErr.outOfRange
  | some t0 =>
    match randKey with
    | Except.error m => Except.error (SendErr.randErr m)
    | Except.ok symKey =>
      match randIV with
      | Except.error m => Except.error (SendErr.randErr m)
      | Except.ok iv =>
        match mkTicket tasks with
        | Except.error m => Except.error (SendErr.ticketErr m)
        | Except.ok ticketM =>
          match encryptTicket keys rsaEncrypt aesEncrypt ticketM t0.Source
              symKey iv with
          | Except.error e => Except.error (SendErr.cryptoErr e)
          | Except.ok et => Except.ok et

/-- C7: for every non-empty task list, the recipient key fingerprint of
the envelope sendTaskList builds is the Source of the first task in the
list, regardless of the Source values of the remaining tasks. -/
theorem sendTaskList_first_source (keys : String → Option PublicKey)
    (rsaEncrypt : List Nat → PublicKey → Except String (List Nat))
    (aesEncrypt : List Nat → List Nat → List Nat → Except String (List Nat))
    (randKey randIV : Except String (List Nat))
    (mkTicket : List Task → Except String (List Nat))
    (tasks : List Task) (et : Encrypted) (h : tasks ≠ [])
    (hok : sendTaskList keys rsaEncrypt aesEncrypt randKey randIV mkTicket tasks
      = Except.ok et) :
    et.KeyFingerprint = (tasks.head h).Source := by
  cases tasks with
  | nil => exact absurd rfl h
  | cons t0 ts =>
    simp only [sendTaskList, List.head?] at hok
    cases randKey with
    | error m => simp at hok
    | ok symKey =>
      cases randIV with
      | error m => simp at hok
      | ok iv =>
        cases hmt : mkTicket (t0 :: ts) with
        | error m => simp [hmt] at hok
        | ok ticketM =>
          cases het : encryptTicket keys rsaEncrypt aesEncrypt ticketM t0.Source
              symKey iv with
          | error e => simp [hmt, het] at hok
          | ok et2 =>
            simp only [hmt, het, Except.ok.injEq] at hok
            subst hok
            exact (encryptTicket_ok_shape keys rsaEncrypt aesEncrypt ticketM
              t0.Source symKey iv et2 het).1

/-- Witness for C7: a two-task list with differing sources "a" and "b"
yields an envelope fingerprinted by the first task's source "a". -/
theorem sendTaskList_first_source_witness :
    sendTaskList demoKeys demoRsa demoAes (Except.ok [5]) (Except.ok [7])
      (fun _ => Except.ok [9]) [taskA, taskB] = Except.ok ⟨"a", [5], [9], [7]⟩ ∧
    (⟨"a", [5], [9], [7]⟩ : Encrypted).KeyFingerprint
      = (([taskA, taskB] : List Task).head (by decide)).Source := by
  refine ⟨by rfl, ?_⟩
  exact sendTaskList_first_source demoKeys demoRsa demoAes (Except.ok [5])
    (Except.ok [7]) (fun _ => Except.ok [9]) [taskA, taskB]
    ⟨"a", [5], [9], [7]⟩ (by decide) (by rfl)

/-- Mirror of storageResult (lines 308-316): the Result field of the
storage service's JSON response. -/
structure StorageResult where
  Sha256 : String
  Sha1 : String
  Md5 : String
  Mime : String
  Source : List String
  Objname : List String
  Submissions : List String
deriving DecidableEq, Repr

/-- Mirror of storageResponse (lines 318-322). -/
structure StorageResponse where
  ResponseCode : Int
  Failure : String
  Result : StorageResult
deriving DecidableEq, Repr

/-- The auto-task synthesized by RoundTrip on a successful upload
(lines 380-389). -/
def autoTask (storageURI : String) (autoTasks : List (String × List String))
    (name source sha256 : String) : Task :=
  ⟨storageURI ++ sha256, "", name, autoTasks, [], 0, source, true⟩

set_option linter.unusedVariables false in
/-- The response-inspection tail of myTransport.RoundTrip (lines
365-398): the forwarded response's body `buf` has been read in full and
is parsed by the JSON oracle `parseStorage` (Go discards the Unmarshal
error, so the oracle is total — a failed parse leaves the zero value).
When ResponseCode is 1 and the configured auto-task map is non-empty,
exactly one task — PrimaryURI the configured storage URI concatenated
with the returned Sha256, Filename the captured name field, Tasks the
configured auto-task map, Source the captured source field, Download
true — is passed as a one-element list to sendTaskList addressed to the
gateway's own organization; the dispatch outcome `send` is discarded,
and the body returned to the client is `buf` in every case. The first
component records the sendTaskList call made, the second the returned
body. -/
def roundTripPost (storageURI : String) (autoTasks : List (String × List String))
    (ownOrg : Nat) (name source : String) (buf : String)
    (parseStorage : String → StorageResponse)
    (send : Nat → List Task → SendOutcome) :
    Option (Nat × List Task) × String :=
  let resp := parseStorage buf
  let dispatched :=
    if resp.ResponseCode = 1 then
      if autoTasks.length ≠ 0 then
        some (ownOrg, [autoTask storageURI autoTasks name source resp.Result.Sha256])
      else none
    else none
  (dispatched, buf)

/-- C5: when the proxied storage response parses with ResponseCode 1
and the configured auto-task map is non-empty, RoundTrip dispatches
exactly one task to the gateway's own organization, with PrimaryURI the
configured storage URI concatenated with the returned Sha256, Filename
the captured name form field, Tasks the configured auto-task map,
Source the captured source form field, and Download true; the response
body returned to the original client is the buffered body unchanged,
identical for every possible outcome of the auto-dispatch. -/
theorem roundTrip_autotask (storageURI : String)
    (autoTasks : List (String × List String)) (ownOrg : Nat)
    (name source buf : String) (parseStorage : String → StorageResponse)
    (send send2 : Nat → List Task → SendOutcome)
    (hcode : (parseStorage buf).ResponseCode = 1)
    (hauto : autoTasks ≠ []) :
    (roundTripPost storageURI autoTasks ownOrg name source buf parseStorage send).1
      = some (ownOrg,
        [⟨storageURI ++ (parseStorage buf).Result.Sha256, "", name, autoTasks,
          [], 0, source, true⟩]) ∧
    (roundTripPost storageURI autoTasks ownOrg name source buf parseStorage send).2
      = buf ∧
    roundTripPost storageURI autoTasks ownOrg name source buf parseStorage send
      = roundTripPost storageURI autoTasks ownOrg name source buf parseStorage send2 := by
  have hlen : autoTasks.length ≠ 0 := by simpa using hauto
  refine ⟨?_, rfl, rfl⟩
  simp [roundTripPost, hcode, hlen, autoTask]

/-- Demo storage fixtures for the C5 witness. -/
def demoStorageResp : StorageResponse :=
  ⟨1, "", ⟨"SHA", "", "", "", [], [], []⟩⟩

def demoParseStorage : String → StorageResponse := fun _ => demoStorageResp

/-- Witness for C5: a concrete successful upload response with one
configured auto-task dispatches the synthesized task to organization 0
and returns the body unchanged. -/
theorem roundTrip_autotask_witness :
    (roundTripPost "http://s/" [("PEID", [])] 0 "n" "a" "body"
        demoParseStorage demoSendOk).1
      = some (0, [⟨"http://s/" ++ "SHA", "", "n", [("PEID", [])], [], 0,
          "a", true⟩]) ∧
    (roundTripPost "http://s/" [("PEID", [])] 0 "n" "a" "body"
        demoParseStorage demoSendOk).2 = "body" ∧
    roundTripPost "http://s/" [("PEID", [])] 0 "n" "a" "body"
        demoParseStorage demoSendOk
      = roundTripPost "http://s/" [("PEID", [])] 0 "n" "a" "body"
        demoParseStorage demoSendDecodeErr :=
  roundTrip_autotask "http://s/" [("PEID", [])] 0 "n" "a" "body"
    demoParseStorage demoSendOk demoSendDecodeErr (by decide) (by decide)

theorem upsert_nonempty (gs : List (Nat × List Task)) (o : Nat) (t : Task)
    (h : ∀ g ∈ gs, g.2 ≠ []) : ∀ g ∈ upsertGroup gs o t, g.2 ≠ [] := by
  induction gs with
  | nil =>
    intro g hg
    simp [upsertGroup] at hg
    subst hg
    simp
  | cons g0 rest ih =>
    obtain ⟨o', ts⟩ := g0
    intro g hg
    by_cases h2 : o' = o
    · rw [upsertGroup_cons_pos _ _ _ _ _ h2] at hg
      rcases List.mem_cons.mp hg with hg | hg
      · subst hg
        simp
      · exact h g (List.mem_cons_of_mem _ hg)
    · rw [upsertGroup_cons_neg _ _ _ _ _ h2] at hg
      rcases List.mem_cons.mp hg with hg | hg
      · subst hg
        exact h _ (List.mem_cons_self _ _)
      · exact ih (fun g' hg' => h g' (List.mem_cons_of_mem _ hg')) g hg

theorem partitionGo_nonempty (router : String → Option Nat) (tasks : List Task) :
    ∀ (gs : List (Nat × List Task)) (es : List TaskError),
    (∀ g ∈ gs, g.2 ≠ []) → ∀ g ∈ (partitionGo router gs es tasks).1, g.2 ≠ [] := by
  induction tasks with
  | nil =>
    intro gs es h
    simpa [partitionGo] using h
  | cons t ts ih =>
    intro gs es h
    cases hr : router t.Source with
    | none =>
      intro g hg
      have hg2 : g ∈ (partitionGo router gs (es ++ [noRouteError t]) ts).1 := by
        simpa [partitionGo, hr] using hg
      exact ih gs (es ++ [noRouteError t]) h g hg2
    | some o =>
      intro g hg
      have hg2 : g ∈ (partitionGo router (upsertGroup gs o t) es ts).1 := by
        simpa [partitionGo, hr] using hg
      exact ih (upsertGroup gs o t) es (upsert_nonempty gs o t h) g hg2

/-- C10: sendTaskList carries the unstated precondition that its task
list is non-empty — its unconditional tasks[0] access is a runtime
fault (outOfRange) exactly on the empty list — and every caller in the
program satisfies it: each group handleTask forms contains at least one
task, and the proxy's auto-dispatch always passes a one-element list. -/
theorem sendTaskList_nonempty_pre :
    (∀ (router : String → Option Nat) (tasks : List Task) g,
      g ∈ (partitionGo router [] [] tasks).1 → g.2 ≠ []) ∧
    (∀ storageURI autoTasks ownOrg name source buf parseStorage send o l,
      (roundTripPost storageURI autoTasks ownOrg name source buf
        parseStorage send).1 = some (o, l) → l.length = 1) ∧
    (∀ keys rsaEncrypt aesEncrypt randKey randIV mkTicket (tasks : List Task),
      tasks ≠ [] →
      sendTaskList keys rsaEncrypt aesEncrypt randKey randIV mkTicket tasks
        ≠ Except.error SendErr.outOfRange) ∧
    (∀ keys rsaEncrypt aesEncrypt randKey randIV mkTicket,
      sendTaskList keys rsaEncrypt aesEncrypt randKey randIV mkTicket []
        = Except.error SendErr.outOfRange) := by
  refine ⟨?_, ?_, ?_, ?_⟩
  · intro router tasks g hg
    exact partitionGo_nonempty router tasks [] [] (by simp) g hg
  · intro storageURI autoTasks ownOrg name source buf parseStorage send o l h
    simp only [roundTripPost] at h
    split at h
    · split at h
      · simp only [Option.some.injEq, Prod.mk.injEq] at h
        rw [← h.2]
        rfl
      · exact absurd h (by simp)
    · exact absurd h (by simp)
  · intro keys rsaEncrypt aesEncrypt randKey randIV mkTicket tasks h
    cases tasks with
    | nil => exact absurd rfl h
    | cons t0 ts =>
      simp only [sendTaskList, List.head?]
      cases randKey with
      | error m => simp
      | ok symKey =>
        cases randIV with
        | error m => simp
        | ok iv =>
          cases hmt : mkTicket (t0 :: ts) with
          | error m => simp [hmt]
          | ok ticketM =>
            cases het : encryptTicket keys rsaEncrypt aesEncrypt ticketM
                t0.Source symKey iv with
            | error e => simp [hmt, het]
            | ok et => simp [hmt, het]
  · intro keys rsaEncrypt aesEncrypt randKey randIV mkTicket
    rfl

/-- Witness for C10: the single group formed for the batch [taskA] is
non-empty, and the non-fault conclusion holds at concrete oracles. -/
theorem sendTaskList_nonempty_pre_witness :
    ([taskA] : List Task) ≠ [] ∧
    sendTaskList demoKeys demoRsa demoAes (Except.ok [5]) (Except.ok [7])
      (fun _ => Except.ok [9]) [taskA] ≠ Except.error SendErr.outOfRange := by
  refine ⟨by decide, ?_⟩
  have hmem : (0, [taskA]) ∈ (partitionGo demoRouter [] [] [taskA]).1 := by decide
  have hne := sendTaskList_nonempty_pre.1 demoRouter [taskA] (0, [taskA]) hmem
  exact sendTaskList_nonempty_pre.2.2.1 demoKeys demoRsa demoAes (Except.ok [5])
    (Except.ok [7]) (fun _ => Except.ok [9]) [taskA] hne
